import Mathlib

/-!
Shallow embedding of the GammaDetectorAnalyzer pipeline.

Each definition is a direct translation of one function of the Python
sources (`given_functions.py`, `data_loading_functions.py`,
`fitting_functions.py`, `GammaDetAnalyzer.py`, `OffAxisAnalyzer.py`).
Channel indices, count rates and ROI bounds are embedded as rationals
(the Python values are exact machine numbers produced by integer counts
divided by measurement times); quantities that go through `sqrt`, `exp`,
`log` or `pi` are embedded as real numbers.  File reading and the
iterative `scipy.optimize.curve_fit` / `numpy.polyfit` solvers are
external collaborators: they enter as explicit function parameters, and
theorems quantify over them.
-/

set_option maxHeartbeats 1000000

/-! ### given_functions.py -/

/-- From `given_functions.in_interval`: the per-element value of the
boolean mask, True for `xmin <= x < xmax`. -/
def in_interval (xmin xmax x : ℚ) : Bool :=
  decide (xmin ≤ x) && decide (x < xmax)

/-- Application of a numpy boolean mask `arr[mask]` to a list: keep the
elements of `arr` whose positionally corresponding mask entry is true. -/
def boolMask {α : Type} (arr : List α) (mask : List Bool) : List α :=
  ((arr.zip mask).filter fun p => p.2).map fun p => p.1

/-- From `given_functions.filter_in_interval`: raises `ValueError` when the
two series differ in length, otherwise applies the mask
`in_interval xmin xmax` (computed on `x`) to both `x` and `y`. -/
def filter_in_interval (x y : List ℚ) (xmin xmax : ℚ) :
    Except String (List ℚ × List ℚ) :=
  if x.length = y.length then
    let mask := x.map (in_interval xmin xmax)
    Except.ok (boolMask x mask, boolMask y mask)
  else
    Except.error "x and y must have the same length."

/-! ### data_loading_functions.py

`load_spe_file` / `load_mca_file` parse instrument files; both return
per-channel count rates with `channels = range(len(count_rates))`.  They
are modelled as abstract loader parameters
`load_mca_file load_spe_file : String → ℚ → List ℚ`
(file path and measurement time to count-rate series). -/

/-- The background-subtraction step of
`data_loading_functions.load_and_extract_roi` (line 78):
`[max(a - b, 0) for a, b in zip(count_rates, count_rates_bg)]`. -/
def subtract_background (count_rates count_rates_bg : List ℚ) : List ℚ :=
  (count_rates.zip count_rates_bg).map fun p => max (p.1 - p.2) 0

/-- From `data_loading_functions.load_and_extract_roi`: loads the spectrum
with the loader selected by `CdTe`, forms `channels` as
`range(len(count_rates))`, subtracts the background, and extracts each
ROI with `filter_in_interval` (whose `ValueError` propagates). -/
def load_and_extract_roi (load_mca_file load_spe_file : String → ℚ → List ℚ)
    (file_path : String) (rois : List (String × ℚ × ℚ))
    (measurement_time : ℚ) (count_rates_bg : List ℚ) (CdTe : Bool) :
    Except String (List ℚ × List ℚ × List ℚ × List (String × List ℚ × List ℚ)) :=
  let count_rates := if CdTe then load_mca_file file_path measurement_time
                     else load_spe_file file_path measurement_time
  let channels := (List.range count_rates.length).map fun (n : ℕ) => (n : ℚ)
  let count_rates_bgsubtracted := subtract_background count_rates count_rates_bg
  do
    let roi_data ← rois.mapM fun roi => do
      let filtered ← filter_in_interval channels count_rates_bgsubtracted roi.2.1 roi.2.2
      pure (roi.1, filtered.1, filtered.2)
    pure (channels, count_rates, count_rates_bgsubtracted, roi_data)

/-- A Spectrum Descriptor, one tuple of the `given_data.py` lists:
`(file_path, isotope-or-angle label, rois, measurement_time, energies)`.
The second component is the sample label (isotope name, angle, or the
`"Background"` sentinel). -/
structure Spectrum where
  file_path : String
  isotope : String
  rois : List (String × ℚ × ℚ)
  measurement_time : ℚ
  energies : List ℚ

/-- From `data_loading_functions.load_background`: scan the spectra in
order, and for the first whose label is `"Background"` return its loaded
count-rate series (loader selected by `CdTe`); if none matches, return
`None`. -/
def load_background (load_mca_file load_spe_file : String → ℚ → List ℚ)
    (CdTe : Bool) : List Spectrum → Option (List ℚ)
  | [] => none
  | spectrum :: rest =>
    if spectrum.isotope = "Background" then
      some (if CdTe then load_mca_file spectrum.file_path spectrum.measurement_time
            else load_spe_file spectrum.file_path spectrum.measurement_time)
    else
      load_background load_mca_file load_spe_file CdTe rest

/-! ### given_functions.py — moment estimates (real-valued) -/

/-- From `given_functions.first_moment`: `np.sum(x * y) / np.sum(y)`
(elementwise product of two equal-length arrays). -/
noncomputable def first_moment (x y : List ℝ) : ℝ :=
  ((x.zip y).map fun p => p.1 * p.2).sum / y.sum

/-- From `given_functions.second_moment`:
`np.sum((x - x0) ** 2 * y) / np.sum(y)` with `x0 = first_moment(x, y)`. -/
noncomputable def second_moment (x y : List ℝ) : ℝ :=
  let x0 := first_moment x y
  ((x.zip y).map fun p => (p.1 - x0) ^ 2 * p.2).sum / y.sum

/-- From `given_functions.gaussian_initial_estimates`: the moment-based
triple `(mu0, sig0, a0)`. -/
noncomputable def gaussian_initial_estimates (channels counts : List ℝ) : ℝ × ℝ × ℝ :=
  (first_moment channels counts,
   Real.sqrt (second_moment channels counts),
   counts.sum)

/-! ### fitting_functions.py -/

/-- From `fitting_functions.TWO_PI`. -/
noncomputable def TWO_PI : ℝ := 2 * Real.pi

/-- From `fitting_functions.normalized_gaussian`. -/
noncomputable def normalized_gaussian (x mu sigma amplitude : ℝ) : ℝ :=
  amplitude * Real.exp (-0.5 * ((x - mu) / sigma) ^ 2) / Real.sqrt (TWO_PI * sigma ^ 2)

/-- From `fitting_functions.normalized_double_gaussian`. -/
noncomputable def normalized_double_gaussian (x mu1 sigma1 amp1 mu2 sigma2 amp2 : ℝ) : ℝ :=
  amp1 * Real.exp (-0.5 * ((x - mu1) / sigma1) ^ 2) / Real.sqrt (TWO_PI * sigma1 ^ 2) +
  amp2 * Real.exp (-0.5 * ((x - mu2) / sigma2) ^ 2) / Real.sqrt (TWO_PI * sigma2 ^ 2)

/-- From `fitting_functions.continuum`: `a * x**2 + b * x + c`. -/
noncomputable def continuum (x a b c : ℝ) : ℝ := a * x ^ 2 + b * x + c

/-- From `fitting_functions.combined_model_gaussian`. -/
noncomputable def combined_model_gaussian (x a b c mu sigma amplitude : ℝ) : ℝ :=
  continuum x a b c + normalized_gaussian x mu sigma amplitude

/-- From `fitting_functions.combined_model_double_gaussian`. -/
noncomputable def combined_model_double_gaussian
    (x a b c mu1 sigma1 amp1 mu2 sigma2 amp2 : ℝ) : ℝ :=
  continuum x a b c + normalized_double_gaussian x mu1 sigma1 amp1 mu2 sigma2 amp2

/-- From `fitting_functions.resolution_function`:
`np.sqrt(a * E**-2 + b * E**-1 + c)`.  This is the model function handed
to `curve_fit` by `GammaDetAnalyzer.calculate_resolution`. -/
noncomputable def resolution_function (E a b c : ℝ) : ℝ :=
  Real.sqrt (a * (E ^ 2)⁻¹ + b * E⁻¹ + c)

/-- From `fitting_functions.linear_model`: `slope * x + intercept`. -/
noncomputable def linear_model (x slope intercept : ℝ) : ℝ := slope * x + intercept

/-! ### GammaDetAnalyzer.fit_peak — initial guess construction

`fit_peak` hands `curve_fit` the starting vector
`background_guess + peak_guess` (tuple concatenation); Python `min` of
an empty list and an unrecognised model name both raise, embedded as
`none`. -/

/-- The initial-guess vector built by `GammaDetAnalyzer.fit_peak` before
calling `curve_fit`: `background_guess = (0, 0, min(roi_net_count_rates))`,
`peak_guess = gaussian_initial_estimates(...)`, concatenated once for
`"gaussian"` and with `peak_guess` repeated (`2 * peak_guess`) for
`"double_gaussian"`. -/
noncomputable def fit_peak_initial_guess (model : String)
    (roi_channels roi_net_count_rates : List ℝ) : Option (List ℝ) :=
  match roi_net_count_rates.min? with
  | none => none
  | some m =>
    let background_guess : List ℝ := [0, 0, m]
    let pg := gaussian_initial_estimates roi_channels roi_net_count_rates
    let peak_guess : List ℝ := [pg.1, pg.2.1, pg.2.2]
    if model = "gaussian" then
      some (background_guess ++ peak_guess)
    else if model = "double_gaussian" then
      some (background_guess ++ peak_guess ++ peak_guess)
    else
      none

/-! ### Isotope/Angle Records and the two Orchestrators

`curve_fit` itself is an external iterative solver; the shape-level
behaviour of `process_spectrum` is embedded with the solver abstracted
as `fit : String → List ℚ → List ℚ → List ℝ`, mapping a model name and
the ROI data to the fitted parameter vector `popt`
(`fit_peak` returns this vector on convergence). -/

/-- One entry of the `isotope_data` accumulator.  `GammaDetAnalyzer.
process_spectrum` stores the spectrum label under the key `"isotope"`,
`OffAxisAnalyzer.process_spectrum` under `"degrees"`; both dicts carry
the same remaining keys. -/
structure IsotopeRecord where
  isotope : String
  total_roi_count_rates : List ℝ
  centroids : List ℝ
  sigmas : List ℝ
  energies : List ℚ
  amplitudes : List ℝ

/-- The per-ROI body of the loop in `GammaDetAnalyzer.process_spectrum`:
for `"gaussian"` append `popt[3], popt[4], popt[5]` to the centroid,
sigma and amplitude accumulators, for `"double_gaussian"` extend them
with `popt[3], popt[6]`, `popt[4], popt[7]` and `popt[5], popt[8]`;
any other model name makes `fit_peak` raise (embedded as `none`). -/
def roi_peak_triples (model : String) (popt : List ℝ) :
    Option (List ℝ × List ℝ × List ℝ) :=
  if model = "gaussian" then
    some ([popt.getD 3 0], [popt.getD 4 0], [popt.getD 5 0])
  else if model = "double_gaussian" then
    some ([popt.getD 3 0, popt.getD 6 0],
          [popt.getD 4 0, popt.getD 7 0],
          [popt.getD 5 0, popt.getD 8 0])
  else
    none

/-- The accumulator loop of `GammaDetAnalyzer.process_spectrum` over
`roi_data`, collecting `(centroids, sigmas, amplitudes)` in ROI order. -/
def collect_peaks (fit : String → List ℚ → List ℚ → List ℝ) :
    List (String × List ℚ × List ℚ) → Option (List ℝ × List ℝ × List ℝ)
  | [] => some ([], [], [])
  | roi :: rest => do
    let t ← roi_peak_triples roi.1 (fit roi.1 roi.2.1 roi.2.2)
    let r ← collect_peaks fit rest
    pure (t.1 ++ r.1, t.2.1 ++ r.2.1, t.2.2 ++ r.2.2)

/-- From `GammaDetAnalyzer.process_spectrum` (aggregation behaviour; the
plotting calls are external sinks and `roi_data` is the output of
`load_and_extract_roi`): a `"Background"` label returns the accumulator
unchanged; otherwise one record is appended whose
`total_roi_count_rates` accumulator is initialised to `[]` and never
appended to anywhere in the loop. -/
def process_spectrum (fit : String → List ℚ → List ℚ → List ℝ)
    (spectrum : Spectrum) (roi_data : List (String × List ℚ × List ℚ))
    (isotope_data : List IsotopeRecord) : Option (List IsotopeRecord) :=
  if spectrum.isotope = "Background" then
    some isotope_data
  else
    match collect_peaks fit roi_data with
    | none => none
    | some r =>
      some (isotope_data ++
        [{ isotope := spectrum.isotope
           total_roi_count_rates := []
           centroids := r.1
           sigmas := r.2.1
           energies := spectrum.energies
           amplitudes := r.2.2 }])

/-- From `OffAxisAnalyzer.process_spectrum`: its `fit_peak` always fits
`combined_model_gaussian` (the model argument is ignored), so the solver
is abstracted as `fit : List ℚ → List ℚ → List ℝ`; for each ROI it
appends `sum(roi_net_count_rates)` to `total_roi_count_rates` and
`popt[3]`, `popt[4]`, `popt[5]` to the other accumulators. -/
def process_spectrum_off_axis (fit : List ℚ → List ℚ → List ℝ)
    (spectrum : Spectrum) (roi_data : List (String × List ℚ × List ℚ))
    (isotope_data : List IsotopeRecord) : List IsotopeRecord :=
  if spectrum.isotope = "Background" then
    isotope_data
  else
    isotope_data ++
      [{ isotope := spectrum.isotope
         total_roi_count_rates := roi_data.map fun roi => ((roi.2.2.sum : ℚ) : ℝ)
         centroids := roi_data.map fun roi => (fit roi.2.1 roi.2.2).getD 3 0
         sigmas := roi_data.map fun roi => (fit roi.2.1 roi.2.2).getD 4 0
         energies := spectrum.energies
         amplitudes := roi_data.map fun roi => (fit roi.2.1 roi.2.2).getD 5 0 }]

/-! ### calibrate_detector (identical in GammaDetAnalyzer.py and
OffAxisAnalyzer.py)

`curve_fit(linear_model, ...)` and `np.polyfit(..., 2)` are external
solvers, abstracted as parameters.  The Python function prints the
standard errors and the non-linearity diagnostic and then executes
`return slope, intercept`; the embedding keeps the printed material in
separate fields so the theorems can talk about it. -/

/-- The output of the abstract `curve_fit(linear_model, ...)` call: the
optimal parameter pair and the 2×2 covariance matrix (rows of pairs). -/
structure LinFit where
  popt : ℝ × ℝ
  pcov : (ℝ × ℝ) × (ℝ × ℝ)

/-- The observable outcome of `calibrate_detector`: `ret` is the value of
the `return slope, intercept` statement; `printed_errors` are the
standard errors `np.sqrt(np.diag(pcov))` that are only printed; `message`
is the printed non-linearity diagnostic. -/
structure CalibOutput where
  ret : ℝ × ℝ
  printed_errors : ℝ × ℝ
  message : String

/-- From `calibrate_detector`: flatten the centroids and energies of all
records, fit the linear model, compute (and print) the standard errors,
compute the quadratic coefficient of a degree-2 polyfit purely to choose
a printed message, and return `slope, intercept`. -/
noncomputable def calibrate_detector
    (curve_fit_linear : List ℝ → List ℚ → LinFit)
    (polyfit_deg2 : List ℝ → List ℚ → ℝ × ℝ × ℝ)
    (isotope_data : List IsotopeRecord) : CalibOutput :=
  let all_centroids := isotope_data.flatMap fun entry => entry.centroids
  let all_energies := isotope_data.flatMap fun entry => entry.energies
  let f := curve_fit_linear all_centroids all_energies
  let slope := f.popt.1
  let intercept := f.popt.2
  let slope_err := Real.sqrt f.pcov.1.1
  let intercept_err := Real.sqrt f.pcov.2.2
  let quadratic_coefficient := (polyfit_deg2 all_centroids all_energies).1
  { ret := (slope, intercept)
    printed_errors := (slope_err, intercept_err)
    message :=
      if |quadratic_coefficient| < 0.001 then
        "Quadratic coefficient is close to 0; a linear fit is likely sufficient."
      else
        "Quadratic coefficient is significant; consider using a quadratic calibration." }

/-! ### GammaDetAnalyzer.calculate_detector_efficiency

Dates appear only through `(datetime.now() - calibration_date).days`,
an integer day count; dates are embedded as integer day numbers and the
run time as the parameter `now`. -/

/-- One entry of the `source_data` table of `given_data.py`. -/
structure SourceInfo where
  isotope : String
  calibration_date : ℤ
  initial_activity : ℝ
  half_life : ℝ
  emission_fractions : List (ℚ × ℝ)

/-- The `detector_geometry` table of `given_data.py`. -/
structure DetectorGeometry where
  detector_radius : ℝ
  source_distance : ℝ

/-- Python `dict.get(key, default)` on the emission-fraction table:
the value of the first matching key, else the default. -/
def dict_get (d : List (ℚ × ℝ)) (key : ℚ) (default : ℝ) : ℝ :=
  match d with
  | [] => default
  | p :: rest => if p.1 = key then p.2 else dict_get rest key default

/-- `next((source for source in source_data if source["isotope"] == isotope), None)`. -/
def find_source (source_data : List SourceInfo) (isotope : String) : Option SourceInfo :=
  source_data.find? fun source => source.isotope == isotope

/-- The detector-area branch of `calculate_detector_efficiency`:
`0.25` for CdTe, `np.pi * detector_radius ** 2` otherwise. -/
noncomputable def detector_area (CdTe : Bool) (geometry : DetectorGeometry) : ℝ :=
  if CdTe then 0.25 else Real.pi * geometry.detector_radius ^ 2

/-- `geometry_factor = detector_area / (4 * np.pi * source_distance ** 2)`. -/
noncomputable def geometry_factor (CdTe : Bool) (geometry : DetectorGeometry) : ℝ :=
  detector_area CdTe geometry / (4 * Real.pi * geometry.source_distance ^ 2)

/-- The decay-corrected activity computed in
`calculate_detector_efficiency`:
`initial_activity = source["initial_activity"] * 37000` (conversion to
Bq), `decay_constant = np.log(2) / half_life`,
`current_activity = initial_activity * np.exp(-decay_constant * elapsed_time_days)`
with `elapsed_time_days = (now - calibration_date).days`. -/
noncomputable def current_activity (source_info : SourceInfo) (now : ℤ) : ℝ :=
  let initial_activity := source_info.initial_activity * 37000
  let elapsed_time_days : ℤ := now - source_info.calibration_date
  let decay_constant := Real.log 2 / source_info.half_life
  initial_activity * Real.exp (-decay_constant * (elapsed_time_days : ℝ))

/-- The per-spectrum body of the `calculate_detector_efficiency` loop:
no matching source reference contributes nothing (`continue`); otherwise
each `(energy, roi_count)` of `zip(energies, roi_counts)` contributes
the triple (absolute efficiency, intrinsic efficiency, energy) appended
to the three result accumulators. -/
noncomputable def spectrum_efficiencies (source_data : List SourceInfo) (now : ℤ)
    (G : ℝ) (spectrum : Spectrum) (roi_counts : List ℝ) : List (ℝ × ℝ × ℚ) :=
  match find_source source_data spectrum.isotope with
  | none => []
  | some source_info =>
    (spectrum.energies.zip roi_counts).map fun p =>
      let emission_fraction := dict_get source_info.emission_fractions p.1 1
      let absolute_efficiency := p.2 / (current_activity source_info now * emission_fraction)
      (absolute_efficiency, absolute_efficiency / G, p.1)

/-- From `GammaDetAnalyzer.calculate_detector_efficiency`: iterate over
`zip(spectra, [entry["amplitudes"] for entry in isotope_data])` and
concatenate the per-spectrum contributions (the three parallel result
lists are embedded as one list of triples). -/
noncomputable def calculate_detector_efficiency (spectra : List Spectrum)
    (isotope_data : List IsotopeRecord) (source_data : List SourceInfo)
    (CdTe : Bool) (geometry : DetectorGeometry) (now : ℤ) : List (ℝ × ℝ × ℚ) :=
  (spectra.zip (isotope_data.map fun entry => entry.amplitudes)).flatMap fun q =>
    spectrum_efficiencies source_data now (geometry_factor CdTe geometry) q.1 q.2

/-! ## Helper lemmas -/

lemma subtract_background_length (a b : List ℚ) :
    (subtract_background a b).length = min a.length b.length := by
  simp [subtract_background]

lemma subtract_background_getD (a b : List ℚ) (i : ℕ)
    (hi : i < min a.length b.length) :
    (subtract_background a b).getD i 0 = max (a.getD i 0 - b.getD i 0) 0 := by
  induction a generalizing b i with
  | nil => simp at hi
  | cons x xs ih =>
    cases b with
    | nil => simp at hi
    | cons y ys =>
      cases i with
      | zero => simp [subtract_background]
      | succ n =>
        have hn : n < min xs.length ys.length := by
          simp only [List.length_cons] at hi; omega
        simpa [subtract_background] using ih ys n hn

lemma boolMask_map_self (x : List ℚ) (p : ℚ → Bool) :
    boolMask x (x.map p) = x.filter p := by
  induction x with
  | nil => rfl
  | cons a l ih =>
    cases h : p a <;> simp [boolMask, List.filter_cons, h] <;>
      simpa [boolMask] using ih

lemma boolMask_map_snd (x y : List ℚ) (p : ℚ → Bool) (h : x.length = y.length) :
    boolMask y (x.map p) =
      ((x.zip y).filter fun q => p q.1).map fun q => q.2 := by
  induction x generalizing y with
  | nil =>
    cases y with
    | nil => rfl
    | cons b ys => simp at h
  | cons a xs ih =>
    cases y with
    | nil => simp at h
    | cons b ys =>
      have h' : xs.length = ys.length := by simpa using h
      cases hp : p a <;>
        simp [boolMask, List.filter_cons, hp] <;>
        simpa [boolMask] using ih ys h'

lemma roi_mapM_ok (channels ys : List ℚ) (h : channels.length = ys.length)
    (rois : List (String × ℚ × ℚ)) :
    ∃ w, (rois.mapM fun roi => do
        let filtered ← filter_in_interval channels ys roi.2.1 roi.2.2
        pure (roi.1, filtered.1, filtered.2) :
          Except String (List (String × List ℚ × List ℚ))) = Except.ok w := by
  induction rois with
  | nil => exact ⟨[], rfl⟩
  | cons roi rest ih =>
    obtain ⟨w, hw⟩ := ih
    refine ⟨(roi.1, boolMask channels (channels.map (in_interval roi.2.1 roi.2.2)),
      boolMask ys (channels.map (in_interval roi.2.1 roi.2.2))) :: w, ?_⟩
    have hfil : filter_in_interval channels ys roi.2.1 roi.2.2 =
        Except.ok (boolMask channels (channels.map (in_interval roi.2.1 roi.2.2)),
          boolMask ys (channels.map (in_interval roi.2.1 roi.2.2))) := by
      simp [filter_in_interval, if_pos h]
    rw [List.mapM_cons, hfil, hw]
    rfl

lemma roi_mapM_error (channels ys : List ℚ) (h : channels.length ≠ ys.length)
    (roi : String × ℚ × ℚ) (rois : List (String × ℚ × ℚ)) :
    (((roi :: rois).mapM fun roi => do
        let filtered ← filter_in_interval channels ys roi.2.1 roi.2.2
        pure (roi.1, filtered.1, filtered.2)) :
          Except String (List (String × List ℚ × List ℚ))) =
      Except.error "x and y must have the same length." := by
  have hfil : filter_in_interval channels ys roi.2.1 roi.2.2 =
      Except.error "x and y must have the same length." := by
    simp [filter_in_interval, if_neg h]
  rw [List.mapM_cons, hfil]
  rfl

/-! ## Claim theorems -/

/-- C2: for equal-length count-rate series A (spectrum) and B (background),
the background-subtracted series C satisfies `C[i] = max(A[i] - B[i], 0)`
for every index i, and `|C| = |A|`. -/
theorem subtract_background_spec (a b : List ℚ) (h : a.length = b.length) :
    (subtract_background a b).length = a.length ∧
    ∀ i, i < a.length →
      (subtract_background a b).getD i 0 = max (a.getD i 0 - b.getD i 0) 0 := by
  constructor
  · rw [subtract_background_length, h, min_self]
  · intro i hi
    exact subtract_background_getD a b i (by omega)

theorem subtract_background_spec_witness :
    (subtract_background [3, 1] [1, 2]).length = 2 ∧
    (subtract_background [3, 1] [1, 2]).getD 0 0 = max ((3 : ℚ) - 1) 0 ∧
    (subtract_background [3, 1] [1, 2]).getD 1 0 = max ((1 : ℚ) - 2) 0 := by
  have h := subtract_background_spec [3, 1] [1, 2] (by decide)
  exact ⟨h.1, h.2 0 (by decide), h.2 1 (by decide)⟩

/-- C3 counterexample: with a spectrum of 2 channels and a background of
3 channels (mismatched lengths), the pipeline silently produces a result
(`Except.ok`) instead of failing with a length-mismatch error: Python
`zip` truncates the subtraction to the shorter series. -/
theorem subtract_background_no_length_check :
    load_and_extract_roi (fun _ _ => []) (fun _ _ => [1, 2]) "f"
        [("gaussian", 0, 2)] 200 [1, 2, 3] false =
      Except.ok ([0, 1], [1, 2], [0, 0], [("gaussian", [0, 1], [0, 0])]) ∧
    ((fun (_ : String) (_ : ℚ) => [(1 : ℚ), 2]) "f" 200).length ≠
      ([1, 2, 3] : List ℚ).length := by
  refine ⟨?_, by decide⟩
  unfold load_and_extract_roi
  norm_num [subtract_background, filter_in_interval, boolMask, in_interval,
    List.range_succ, List.mapM_cons, List.mapM_nil]
  rfl

/-- C3 amended: background subtraction performs no length check of its
own.  `zip` truncates to the shorter series
(`|C| = min(|A|, |B|)`, `C[i] = max(A[i] - B[i], 0)` below that length);
when the background is at least as long as the spectrum the pipeline
silently succeeds, and a length-mismatch error arises only downstream,
from ROI filtering, when the background is shorter than the spectrum and
at least one ROI is requested. -/
theorem subtract_background_truncation :
    (∀ a b : List ℚ, (subtract_background a b).length = min a.length b.length) ∧
    (∀ a b : List ℚ, ∀ i, i < min a.length b.length →
      (subtract_background a b).getD i 0 = max (a.getD i 0 - b.getD i 0) 0) ∧
    (∀ (load_mca_file load_spe_file : String → ℚ → List ℚ) file_path
        (rois : List (String × ℚ × ℚ)) measurement_time
        (count_rates_bg : List ℚ) (CdTe : Bool),
      (if CdTe then load_mca_file file_path measurement_time
       else load_spe_file file_path measurement_time).length ≤ count_rates_bg.length →
      ∃ v, load_and_extract_roi load_mca_file load_spe_file file_path rois
          measurement_time count_rates_bg CdTe = Except.ok v) ∧
    (∀ (load_mca_file load_spe_file : String → ℚ → List ℚ) file_path
        (roi : String × ℚ × ℚ) (rois : List (String × ℚ × ℚ)) measurement_time
        (count_rates_bg : List ℚ) (CdTe : Bool),
      count_rates_bg.length < (if CdTe then load_mca_file file_path measurement_time
        else load_spe_file file_path measurement_time).length →
      load_and_extract_roi load_mca_file load_spe_file file_path (roi :: rois)
          measurement_time count_rates_bg CdTe =
        Except.error "x and y must have the same length.") := by
  refine ⟨subtract_background_length, fun a b => subtract_background_getD a b,
    ?_, ?_⟩
  · intro lm ls fp rois t bg CdTe hle
    set cr := if CdTe then lm fp t else ls fp t with hcr
    have hlen : ((List.range cr.length).map fun (n : ℕ) => (n : ℚ)).length =
        (subtract_background cr bg).length := by
      rw [subtract_background_length, min_eq_left hle]
      simp only [List.length_map, List.length_range]
    obtain ⟨w, hw⟩ := roi_mapM_ok _ _ hlen rois
    exact ⟨_, by rw [load_and_extract_roi, ← hcr, hw]; rfl⟩
  · intro lm ls fp roi rois t bg CdTe hlt
    set cr := if CdTe then lm fp t else ls fp t with hcr
    have hlen : ((List.range cr.length).map fun (n : ℕ) => (n : ℚ)).length ≠
        (subtract_background cr bg).length := by
      rw [subtract_background_length, min_eq_right (le_of_lt hlt)]
      simp only [List.length_map, List.length_range]
      omega
    have hw := roi_mapM_error _ _ hlen roi rois
    rw [load_and_extract_roi, ← hcr, hw]
    rfl

theorem subtract_background_truncation_witness :
    (subtract_background [1, 2] [1]).length = min 2 1 ∧
    (subtract_background [1, 2] [1]).getD 0 0 = max ((1 : ℚ) - 1) 0 ∧
    (∃ v, load_and_extract_roi (fun _ _ => []) (fun _ _ => [1, 2]) "f"
        [("gaussian", 0, 2)] 200 [1, 2, 3] false = Except.ok v) ∧
    load_and_extract_roi (fun _ _ => []) (fun _ _ => [1, 2]) "f"
        [("gaussian", 0, 2)] 200 [1] false =
      Except.error "x and y must have the same length." := by
  obtain ⟨h1, h2, h3, h4⟩ := subtract_background_truncation
  exact ⟨h1 [1, 2] [1], h2 [1, 2] [1] 0 (by decide),
    h3 _ _ "f" _ 200 [1, 2, 3] false (by decide),
    h4 _ _ "f" ("gaussian", 0, 2) [] 200 [1] false (by decide)⟩

/-- C4: with equal-length inputs, ROI extraction keeps exactly the
entries whose channel value c satisfies lo ≤ c < hi, in their original
order (both the channel series and the positionally corresponding
count-rate values); the boundary channel hi is excluded even if present;
with inputs of different lengths it fails with the length-mismatch
error. -/
theorem filter_in_interval_spec (x y : List ℚ) (lo hi : ℚ) :
    (x.length = y.length →
      filter_in_interval x y lo hi =
        Except.ok (x.filter (fun c => in_interval lo hi c),
          ((x.zip y).filter fun p => in_interval lo hi p.1).map fun p => p.2) ∧
      (∀ c ∈ x.filter (fun c => in_interval lo hi c), lo ≤ c ∧ c < hi) ∧
      hi ∉ x.filter (fun c => in_interval lo hi c)) ∧
    (x.length ≠ y.length →
      filter_in_interval x y lo hi =
        Except.error "x and y must have the same length.") := by
  constructor
  · intro h
    refine ⟨?_, ?_, ?_⟩
    · simp only [filter_in_interval, if_pos h]
      rw [boolMask_map_self, boolMask_map_snd x y _ h]
    · intro c hc
      rw [List.mem_filter, in_interval] at hc
      constructor
      · exact of_decide_eq_true (Bool.and_elim_left hc.2)
      · exact of_decide_eq_true (Bool.and_elim_right hc.2)
    · intro hmem
      rw [List.mem_filter, in_interval] at hmem
      exact absurd (of_decide_eq_true (Bool.and_elim_right hmem.2)) (lt_irrefl hi)
  · intro h
    rw [filter_in_interval, if_neg h]

theorem filter_in_interval_spec_witness :
    filter_in_interval [1, 2, 3] [4, 5, 6] 2 3 = Except.ok ([2], [5]) ∧
    ((2 : ℚ) ≤ 2 ∧ (2 : ℚ) < 3) ∧
    (3 : ℚ) ∉ ([2] : List ℚ) ∧
    filter_in_interval [1, 2] [4] 0 1 =
      Except.error "x and y must have the same length." := by
  have h := (filter_in_interval_spec [1, 2, 3] [4, 5, 6] 2 3).1 (by decide)
  have herr := (filter_in_interval_spec [1, 2] [4] 0 1).2 (by decide)
  refine ⟨?_, h.2.1 2 (by decide), by decide, herr⟩
  rw [h.1]; exact congrArg Except.ok (by decide)

lemma gaussian_exponent_eq (x mu sigma : ℝ) :
    -0.5 * ((x - mu) / sigma) ^ 2 = -((x - mu) ^ 2) / (2 * sigma ^ 2) := by
  rcases eq_or_ne sigma 0 with h | h
  · subst h; simp
  · field_simp
    ring

/-- C6: the single-peak model value equals the continuum
`a·x² + b·x + c` plus the standard Gaussian density divided by its own
normalization constant `sqrt(2π·sigma²)` and scaled by `amplitude`; the
double-peak model is the continuum plus the sum of two such normalized
Gaussians. -/
theorem combined_model_spec :
    (∀ x a b c mu sigma amplitude : ℝ,
      combined_model_gaussian x a b c mu sigma amplitude =
        (a * x ^ 2 + b * x + c) +
          amplitude * Real.exp (-((x - mu) ^ 2) / (2 * sigma ^ 2)) /
            Real.sqrt (2 * Real.pi * sigma ^ 2)) ∧
    (∀ x a b c mu1 sigma1 amp1 mu2 sigma2 amp2 : ℝ,
      combined_model_double_gaussian x a b c mu1 sigma1 amp1 mu2 sigma2 amp2 =
        (a * x ^ 2 + b * x + c) +
          (amp1 * Real.exp (-((x - mu1) ^ 2) / (2 * sigma1 ^ 2)) /
             Real.sqrt (2 * Real.pi * sigma1 ^ 2) +
           amp2 * Real.exp (-((x - mu2) ^ 2) / (2 * sigma2 ^ 2)) /
             Real.sqrt (2 * Real.pi * sigma2 ^ 2))) := by
  constructor
  · intro x a b c mu sigma amplitude
    simp only [combined_model_gaussian, continuum, normalized_gaussian, TWO_PI]
    rw [gaussian_exponent_eq]
  · intro x a b c mu1 sigma1 amp1 mu2 sigma2 amp2
    simp only [combined_model_double_gaussian, continuum,
      normalized_double_gaussian, TWO_PI]
    rw [gaussian_exponent_eq, gaussian_exponent_eq]

/-- C1 (code-bug evidence): the model function that
`GammaDetAnalyzer.calculate_resolution` hands to the solver together
with the resolution² data is `resolution_function`, whose value at
`E = 1`, `(a, b, c) = (1, 1, 1)` is `sqrt 3`, not the value
`a/E² + b/E + c = 3` stated by the specification. -/
theorem resolution_function_is_sqrt_of_model :
    resolution_function 1 1 1 1 = Real.sqrt 3 ∧
    resolution_function 1 1 1 1 ≠ 1 * ((1 : ℝ) ^ 2)⁻¹ + 1 * (1 : ℝ)⁻¹ + 1 := by
  have h1 : resolution_function 1 1 1 1 = Real.sqrt 3 := by
    rw [resolution_function]; norm_num
  have h2 : Real.sqrt 3 ≠ 3 := by
    intro h
    have h9 : (3 : ℝ) = 9 := by
      calc (3 : ℝ) = Real.sqrt 3 ^ 2 := (Real.sq_sqrt (by norm_num)).symm
        _ = 3 ^ 2 := by rw [h]
        _ = 9 := by norm_num
    norm_num at h9
  have h3 : 1 * ((1 : ℝ) ^ 2)⁻¹ + 1 * (1 : ℝ)⁻¹ + 1 = 3 := by norm_num
  exact ⟨h1, by rw [h1, h3]; exact h2⟩

/-- C5: for a non-empty ROI, the initial-guess vector starts the
continuum coefficients at `(0, 0, min(count rates))` and the peak
parameters at the moment estimates — centroid `sum(x·y)/sum(y)`, width
`sqrt` of the weighted variance about that centroid, amplitude `sum(y)`
— and for the double-peak model both peaks start from the same
moment-estimate triple. -/
theorem fit_peak_initial_guess_spec
    (roi_channels roi_net_count_rates : List ℝ) (m : ℝ)
    (hm : roi_net_count_rates.min? = some m) :
    fit_peak_initial_guess "gaussian" roi_channels roi_net_count_rates =
      some [0, 0, m,
        ((roi_channels.zip roi_net_count_rates).map fun p => p.1 * p.2).sum /
          roi_net_count_rates.sum,
        Real.sqrt (((roi_channels.zip roi_net_count_rates).map fun p =>
          (p.1 - ((roi_channels.zip roi_net_count_rates).map fun q =>
            q.1 * q.2).sum / roi_net_count_rates.sum) ^ 2 * p.2).sum /
              roi_net_count_rates.sum),
        roi_net_count_rates.sum] ∧
    fit_peak_initial_guess "double_gaussian" roi_channels roi_net_count_rates =
      some [0, 0, m,
        ((roi_channels.zip roi_net_count_rates).map fun p => p.1 * p.2).sum /
          roi_net_count_rates.sum,
        Real.sqrt (((roi_channels.zip roi_net_count_rates).map fun p =>
          (p.1 - ((roi_channels.zip roi_net_count_rates).map fun q =>
            q.1 * q.2).sum / roi_net_count_rates.sum) ^ 2 * p.2).sum /
              roi_net_count_rates.sum),
        roi_net_count_rates.sum,
        ((roi_channels.zip roi_net_count_rates).map fun p => p.1 * p.2).sum /
          roi_net_count_rates.sum,
        Real.sqrt (((roi_channels.zip roi_net_count_rates).map fun p =>
          (p.1 - ((roi_channels.zip roi_net_count_rates).map fun q =>
            q.1 * q.2).sum / roi_net_count_rates.sum) ^ 2 * p.2).sum /
              roi_net_count_rates.sum),
        roi_net_count_rates.sum] := by
  constructor
  all_goals
    simp [fit_peak_initial_guess, hm, gaussian_initial_estimates,
      first_moment, second_moment]

theorem fit_peak_initial_guess_spec_witness :
    fit_peak_initial_guess "gaussian" [0, 2] [1, 1] =
      some [0, 0, 1, 1, 1, 2] ∧
    fit_peak_initial_guess "double_gaussian" [0, 2] [1, 1] =
      some [0, 0, 1, 1, 1, 2, 1, 1, 2] := by
  have hm : ([1, 1] : List ℝ).min? = some 1 := by
    simp [List.min?]
  have h := fit_peak_initial_guess_spec [0, 2] [1, 1] 1 hm
  have hmu : ((([0, 2] : List ℝ).zip [1, 1]).map fun p => p.1 * p.2).sum /
      ([1, 1] : List ℝ).sum = 1 := by
    norm_num [List.zip]
  have hsig : Real.sqrt (((([0, 2] : List ℝ).zip [1, 1]).map fun p =>
      (p.1 - ((([0, 2] : List ℝ).zip [1, 1]).map fun q =>
        q.1 * q.2).sum / ([1, 1] : List ℝ).sum) ^ 2 * p.2).sum /
          ([1, 1] : List ℝ).sum) = 1 := by
    rw [show ((([0, 2] : List ℝ).zip [1, 1]).map fun p =>
      (p.1 - ((([0, 2] : List ℝ).zip [1, 1]).map fun q =>
        q.1 * q.2).sum / ([1, 1] : List ℝ).sum) ^ 2 * p.2).sum /
          ([1, 1] : List ℝ).sum = 1 by norm_num [List.zip]]
    exact Real.sqrt_one
  have hsum : ([1, 1] : List ℝ).sum = 2 := by norm_num
  constructor
  · rw [h.1, hsig, hmu, hsum]
  · rw [h.2, hsig, hmu, hsum]

/-- C7 (code-bug evidence): the value returned by `calibrate_detector`
is only the pair `(slope, intercept)` from the linear fit — for every
solver outcome it does not contain the standard errors (which are
computed from the covariance diagonal and only printed), and it is
unchanged by the quadratic diagnostic coefficient; concretely, with a
covariance diagonal `(9, 16)` the errors `(3, 4)` are computed but the
return value is the same as with any other covariance or quadratic
coefficient. -/
theorem calibrate_detector_return_shape :
    (∀ (curve_fit_linear : List ℝ → List ℚ → LinFit)
       (q q' : List ℝ → List ℚ → ℝ × ℝ × ℝ) (isotope_data : List IsotopeRecord),
      (calibrate_detector curve_fit_linear q isotope_data).ret =
        ((curve_fit_linear (isotope_data.flatMap fun entry => entry.centroids)
            (isotope_data.flatMap fun entry => entry.energies)).popt.1,
         (curve_fit_linear (isotope_data.flatMap fun entry => entry.centroids)
            (isotope_data.flatMap fun entry => entry.energies)).popt.2) ∧
      (calibrate_detector curve_fit_linear q isotope_data).ret =
        (calibrate_detector curve_fit_linear q' isotope_data).ret) ∧
    (calibrate_detector (fun _ _ => ⟨(2, 3), ((9, 0), (0, 16))⟩)
        (fun _ _ => (0, 0, 0)) []).ret = (2, 3) ∧
    (calibrate_detector (fun _ _ => ⟨(2, 3), ((9, 0), (0, 16))⟩)
        (fun _ _ => (0, 0, 0)) []).printed_errors = (3, 4) ∧
    (calibrate_detector (fun _ _ => ⟨(2, 3), ((9, 0), (0, 16))⟩)
        (fun _ _ => (0, 0, 0)) []).ret =
      (calibrate_detector (fun _ _ => ⟨(2, 3), ((1, 0), (0, 1))⟩)
        (fun _ _ => (5, 0, 0)) []).ret := by
  refine ⟨fun lin q q' data => ⟨rfl, rfl⟩, rfl, ?_, rfl⟩
  show (Real.sqrt 9, Real.sqrt 16) = ((3 : ℝ), (4 : ℝ))
  have h9 : Real.sqrt 9 = 3 := by
    rw [show (9 : ℝ) = 3 ^ 2 by norm_num]
    exact Real.sqrt_sq (by norm_num)
  have h16 : Real.sqrt 16 = 4 := by
    rw [show (16 : ℝ) = 4 ^ 2 by norm_num]
    exact Real.sqrt_sq (by norm_num)
  rw [h9, h16]

/-- C10: `load_background` returns the loaded count-rate series of the
first spectrum whose label is exactly `"Background"` (the first match of
a linear scan), and returns `None` — not an error — when no spectrum of
the dataset carries that label. -/
theorem load_background_spec
    (load_mca_file load_spe_file : String → ℚ → List ℚ) (CdTe : Bool)
    (spectra : List Spectrum) :
    load_background load_mca_file load_spe_file CdTe spectra =
      (spectra.find? fun sp => sp.isotope == "Background").map
        (fun sp => if CdTe then load_mca_file sp.file_path sp.measurement_time
                   else load_spe_file sp.file_path sp.measurement_time) ∧
    ((∀ sp ∈ spectra, sp.isotope ≠ "Background") →
      load_background load_mca_file load_spe_file CdTe spectra = none) := by
  have hfind : load_background load_mca_file load_spe_file CdTe spectra =
      (spectra.find? fun sp => sp.isotope == "Background").map
        (fun sp => if CdTe then load_mca_file sp.file_path sp.measurement_time
                   else load_spe_file sp.file_path sp.measurement_time) := by
    induction spectra with
    | nil => rfl
    | cons sp rest ih =>
      by_cases h : sp.isotope = "Background"
      · rw [load_background, if_pos h, List.find?_cons_of_pos _ (by simpa using h)]
        rfl
      · rw [load_background, if_neg h, List.find?_cons_of_neg _ (by simpa using h)]
        exact ih
  refine ⟨hfind, fun h => ?_⟩
  rw [hfind, List.find?_eq_none.mpr fun sp hsp => by simpa using h sp hsp]
  rfl

theorem load_background_spec_witness :
    load_background (fun _ _ => [7]) (fun _ _ => [8]) false
      [⟨"g", "241-Am", [], 1, []⟩, ⟨"f", "Background", [], 1, []⟩] = some [8] ∧
    load_background (fun _ _ => [7]) (fun _ _ => [8]) false
      [⟨"g", "241-Am", [], 1, []⟩] = none := by
  have h1 := load_background_spec (fun _ _ => [7]) (fun _ _ => [8]) false
    [⟨"g", "241-Am", [], 1, []⟩, ⟨"f", "Background", [], 1, []⟩]
  have h2 := load_background_spec (fun _ _ => [7]) (fun _ _ => [8]) false
    [⟨"g", "241-Am", [], 1, []⟩]
  refine ⟨?_, h2.2 ?_⟩
  · rw [h1.1]; rfl
  · intro sp hsp
    simp only [List.mem_singleton] at hsp
    subst hsp
    decide

lemma dict_get_default (d : List (ℚ × ℝ)) (e : ℚ) (default : ℝ)
    (h : ∀ q ∈ d, q.1 ≠ e) : dict_get d e default = default := by
  induction d with
  | nil => rfl
  | cons q rest ih =>
    rw [dict_get, if_neg (h q (List.mem_cons_self q rest))]
    exact ih fun r hr => h r (List.mem_cons_of_mem q hr)

/-- C8: for a spectrum whose isotope has a source-reference entry, every
`(energy, amplitude)` pair contributes absolute efficiency
`amplitude / (current_activity × emission_fraction)` with
`current_activity = initial_activity × 37000 ×
exp(-(ln 2 / half_life) × days_since_calibration)` and the emission
fraction defaulting to `1.0` for unlisted energies, and intrinsic
efficiency = absolute efficiency / geometry factor with geometry factor
`detector_area / (4π × source_distance²)`, where the area is the fixed
constant `0.25` for CdTe and `π·radius²` otherwise; at zero elapsed days
the decay correction is the identity (the activity is the initial
activity in Bq). -/
theorem calculate_detector_efficiency_spec :
    (∀ (source_data : List SourceInfo) (now : ℤ) (CdTe : Bool)
       (geometry : DetectorGeometry) (spectrum : Spectrum)
       (roi_counts : List ℝ) (source_info : SourceInfo),
      find_source source_data spectrum.isotope = some source_info →
      spectrum_efficiencies source_data now (geometry_factor CdTe geometry)
          spectrum roi_counts =
        (spectrum.energies.zip roi_counts).map fun p =>
          (p.2 / (source_info.initial_activity * 37000 *
              Real.exp (-(Real.log 2 / source_info.half_life) *
                ((now - source_info.calibration_date : ℤ) : ℝ)) *
              dict_get source_info.emission_fractions p.1 1),
           p.2 / (source_info.initial_activity * 37000 *
              Real.exp (-(Real.log 2 / source_info.half_life) *
                ((now - source_info.calibration_date : ℤ) : ℝ)) *
              dict_get source_info.emission_fractions p.1 1) /
            (detector_area CdTe geometry /
              (4 * Real.pi * geometry.source_distance ^ 2)),
           p.1)) ∧
    (∀ (source_info : SourceInfo) (now : ℤ),
      now = source_info.calibration_date →
      current_activity source_info now = source_info.initial_activity * 37000) ∧
    (∀ (source_info : SourceInfo) (e : ℚ),
      (∀ q ∈ source_info.emission_fractions, q.1 ≠ e) →
      dict_get source_info.emission_fractions e 1 = 1) ∧
    (∀ geometry : DetectorGeometry,
      detector_area true geometry = 0.25 ∧
      detector_area false geometry = Real.pi * geometry.detector_radius ^ 2) := by
  refine ⟨?_, ?_, ?_, fun g => ⟨rfl, rfl⟩⟩
  · intro source_data now CdTe geometry spectrum roi_counts source_info hfind
    simp only [spectrum_efficiencies, hfind, current_activity, geometry_factor]
  · intro source_info now h
    subst h
    simp [current_activity]
  · intro source_info e h
    exact dict_get_default _ e 1 h

theorem calculate_detector_efficiency_spec_witness :
    spectrum_efficiencies [⟨"241-Am", 0, 5, 432, [(59.5, 0.36)]⟩] 0
        (geometry_factor false ⟨2.54, 15⟩) ⟨"f", "241-Am", [], 200, [60]⟩ [2] =
      [(2 / (5 * 37000),
        2 / (5 * 37000) / (Real.pi * 2.54 ^ 2 / (4 * Real.pi * 15 ^ 2)),
        60)] ∧
    current_activity ⟨"241-Am", 0, 5, 432, [(59.5, 0.36)]⟩ 0 = 5 * 37000 ∧
    dict_get [((59.5 : ℚ), (0.36 : ℝ))] 60 1 = 1 := by
  have hfind : find_source [⟨"241-Am", 0, 5, 432, [(59.5, 0.36)]⟩] "241-Am" =
      some ⟨"241-Am", 0, 5, 432, [(59.5, 0.36)]⟩ := rfl
  have h := calculate_detector_efficiency_spec
  have hmap := h.1 [⟨"241-Am", 0, 5, 432, [(59.5, 0.36)]⟩] 0 false ⟨2.54, 15⟩
    ⟨"f", "241-Am", [], 200, [60]⟩ [2] ⟨"241-Am", 0, 5, 432, [(59.5, 0.36)]⟩ hfind
  have hact := h.2.1 ⟨"241-Am", 0, 5, 432, [(59.5, 0.36)]⟩ 0 rfl
  have hfrac := h.2.2.1 ⟨"241-Am", 0, 5, 432, [(59.5, 0.36)]⟩ 60
    (by intro q hq; simp only [List.mem_singleton] at hq; subst hq; norm_num)
  refine ⟨?_, hact, hfrac⟩
  rw [hmap]
  simp only [List.zip_cons_cons, List.zip_nil_right, List.map_cons, List.map_nil]
  rw [show ((0 - 0 : ℤ) : ℝ) = 0 by norm_num]
  rw [show -(Real.log 2 / 432) * (0 : ℝ) = 0 by ring, Real.exp_zero]
  have hfr : dict_get [((59.5 : ℚ), (0.36 : ℝ))] 60 1 = 1 := hfrac
  show [((2 : ℝ) / (5 * 37000 * 1 * dict_get [((59.5 : ℚ), (0.36 : ℝ))] 60 1),
      (2 : ℝ) / (5 * 37000 * 1 * dict_get [((59.5 : ℚ), (0.36 : ℝ))] 60 1) /
        (detector_area false ⟨2.54, 15⟩ / (4 * Real.pi * (15 : ℝ) ^ 2)),
      (60 : ℚ))] = _
  rw [hfr]
  norm_num [detector_area]

/-- C9 counterexample: in the on-axis Orchestrator
(`GammaDetAnalyzer.process_spectrum`) one non-background spectrum with
exactly one ROI appends a record whose summed-ROI-count-rate list is
empty — not one entry per ROI: `total_roi_count_rates` is initialised to
`[]` and never appended to. -/
theorem process_spectrum_empty_totals :
    process_spectrum (fun _ _ _ => [0, 0, 0, 10, 2, 100])
        ⟨"f", "137-Cs", [("gaussian", 280, 400)], 200, [661.7]⟩
        [("gaussian", [1], [3])] [] =
      some [⟨"137-Cs", [], [10], [2], [661.7], [100]⟩] ∧
    ([("gaussian", ([1] : List ℚ), ([3] : List ℚ))]).length = 1 ∧
    (⟨"137-Cs", [], [10], [2], [661.7], [100]⟩ :
        IsotopeRecord).total_roi_count_rates.length = 0 := by
  exact ⟨rfl, rfl, rfl⟩

lemma length_flatMap_peaks (l : List (String × List ℚ × List ℚ))
    (F : (String × List ℚ × List ℚ) → List ℝ)
    (h : ∀ roi ∈ l, (F roi).length = if roi.1 = "gaussian" then 1 else 2) :
    (l.flatMap F).length =
      (l.map fun roi => if roi.1 = "gaussian" then 1 else 2).sum := by
  induction l with
  | nil => rfl
  | cons roi rest ih =>
    simp only [List.flatMap_cons, List.map_cons, List.length_append,
      List.sum_cons, h roi (List.mem_cons_self roi rest),
      ih fun r hr => h r (List.mem_cons_of_mem roi hr)]

/-- C9 amended: a background-labeled spectrum appends nothing in either
Orchestrator; a non-background spectrum appends exactly one record with
the label, the expected energies, and centroid/sigma/amplitude lists
collected in ROI-then-peak-within-ROI order (one entry per fitted peak,
so all three have length equal to the total peak count, 1 per
single-Gaussian ROI and 2 per double-Gaussian ROI); the
summed-ROI-count-rate list has one entry per ROI in the off-axis
Orchestrator but is left empty by the on-axis Orchestrator. -/
theorem process_spectrum_record_spec :
    (∀ (fit : String → List ℚ → List ℚ → List ℝ) (spectrum : Spectrum)
       (roi_data : List (String × List ℚ × List ℚ))
       (isotope_data : List IsotopeRecord),
      spectrum.isotope = "Background" →
      process_spectrum fit spectrum roi_data isotope_data = some isotope_data) ∧
    (∀ (fit : List ℚ → List ℚ → List ℝ) (spectrum : Spectrum)
       (roi_data : List (String × List ℚ × List ℚ))
       (isotope_data : List IsotopeRecord),
      spectrum.isotope = "Background" →
      process_spectrum_off_axis fit spectrum roi_data isotope_data = isotope_data) ∧
    (∀ (fit : String → List ℚ → List ℚ → List ℝ)
       (roi_data : List (String × List ℚ × List ℚ)),
      (∀ roi ∈ roi_data, roi.1 = "gaussian" ∨ roi.1 = "double_gaussian") →
      collect_peaks fit roi_data =
        some (roi_data.flatMap fun roi =>
                if roi.1 = "gaussian" then [(fit roi.1 roi.2.1 roi.2.2).getD 3 0]
                else [(fit roi.1 roi.2.1 roi.2.2).getD 3 0,
                      (fit roi.1 roi.2.1 roi.2.2).getD 6 0],
              roi_data.flatMap fun roi =>
                if roi.1 = "gaussian" then [(fit roi.1 roi.2.1 roi.2.2).getD 4 0]
                else [(fit roi.1 roi.2.1 roi.2.2).getD 4 0,
                      (fit roi.1 roi.2.1 roi.2.2).getD 7 0],
              roi_data.flatMap fun roi =>
                if roi.1 = "gaussian" then [(fit roi.1 roi.2.1 roi.2.2).getD 5 0]
                else [(fit roi.1 roi.2.1 roi.2.2).getD 5 0,
                      (fit roi.1 roi.2.1 roi.2.2).getD 8 0])) ∧
    (∀ (fit : String → List ℚ → List ℚ → List ℝ) (spectrum : Spectrum)
       (roi_data : List (String × List ℚ × List ℚ))
       (isotope_data : List IsotopeRecord) (r : List ℝ × List ℝ × List ℝ),
      spectrum.isotope ≠ "Background" →
      collect_peaks fit roi_data = some r →
      process_spectrum fit spectrum roi_data isotope_data =
        some (isotope_data ++
          [{ isotope := spectrum.isotope
             total_roi_count_rates := []
             centroids := r.1
             sigmas := r.2.1
             energies := spectrum.energies
             amplitudes := r.2.2 }])) ∧
    (∀ (fit : String → List ℚ → List ℚ → List ℝ)
       (roi_data : List (String × List ℚ × List ℚ)),
      (∀ roi ∈ roi_data, roi.1 = "gaussian" ∨ roi.1 = "double_gaussian") →
      ∀ r, collect_peaks fit roi_data = some r →
        r.1.length = (roi_data.map fun roi =>
          if roi.1 = "gaussian" then 1 else 2).sum ∧
        r.2.1.length = (roi_data.map fun roi =>
          if roi.1 = "gaussian" then 1 else 2).sum ∧
        r.2.2.length = (roi_data.map fun roi =>
          if roi.1 = "gaussian" then 1 else 2).sum) ∧
    (∀ (fit : List ℚ → List ℚ → List ℝ) (spectrum : Spectrum)
       (roi_data : List (String × List ℚ × List ℚ))
       (isotope_data : List IsotopeRecord),
      spectrum.isotope ≠ "Background" →
      process_spectrum_off_axis fit spectrum roi_data isotope_data =
        isotope_data ++
          [{ isotope := spectrum.isotope
             total_roi_count_rates := roi_data.map fun roi => ((roi.2.2.sum : ℚ) : ℝ)
             centroids := roi_data.map fun roi => (fit roi.2.1 roi.2.2).getD 3 0
             sigmas := roi_data.map fun roi => (fit roi.2.1 roi.2.2).getD 4 0
             energies := spectrum.energies
             amplitudes := roi_data.map fun roi => (fit roi.2.1 roi.2.2).getD 5 0 }] ∧
      (roi_data.map fun roi => ((roi.2.2.sum : ℚ) : ℝ)).length = roi_data.length) := by
  have hcollect : ∀ (fit : String → List ℚ → List ℚ → List ℝ)
      (roi_data : List (String × List ℚ × List ℚ)),
      (∀ roi ∈ roi_data, roi.1 = "gaussian" ∨ roi.1 = "double_gaussian") →
      collect_peaks fit roi_data =
        some (roi_data.flatMap fun roi =>
                if roi.1 = "gaussian" then [(fit roi.1 roi.2.1 roi.2.2).getD 3 0]
                else [(fit roi.1 roi.2.1 roi.2.2).getD 3 0,
                      (fit roi.1 roi.2.1 roi.2.2).getD 6 0],
              roi_data.flatMap fun roi =>
                if roi.1 = "gaussian" then [(fit roi.1 roi.2.1 roi.2.2).getD 4 0]
                else [(fit roi.1 roi.2.1 roi.2.2).getD 4 0,
                      (fit roi.1 roi.2.1 roi.2.2).getD 7 0],
              roi_data.flatMap fun roi =>
                if roi.1 = "gaussian" then [(fit roi.1 roi.2.1 roi.2.2).getD 5 0]
                else [(fit roi.1 roi.2.1 roi.2.2).getD 5 0,
                      (fit roi.1 roi.2.1 roi.2.2).getD 8 0]) := by
    intro fit roi_data h
    induction roi_data with
    | nil => rfl
    | cons roi rest ih =>
      have hrest := ih fun r hr => h r (List.mem_cons_of_mem roi hr)
      rcases h roi (List.mem_cons_self roi rest) with hg | hd
      · have h1 : roi_peak_triples roi.1 (fit roi.1 roi.2.1 roi.2.2) =
            some ([(fit roi.1 roi.2.1 roi.2.2).getD 3 0],
                  [(fit roi.1 roi.2.1 roi.2.2).getD 4 0],
                  [(fit roi.1 roi.2.1 roi.2.2).getD 5 0]) := by
          rw [roi_peak_triples, if_pos hg]
        rw [collect_peaks, h1, hrest]
        simp only [List.flatMap_cons, if_pos hg]
        rfl
      · have hng : ¬roi.1 = "gaussian" := by rw [hd]; decide
        have h1 : roi_peak_triples roi.1 (fit roi.1 roi.2.1 roi.2.2) =
            some ([(fit roi.1 roi.2.1 roi.2.2).getD 3 0,
                   (fit roi.1 roi.2.1 roi.2.2).getD 6 0],
                  [(fit roi.1 roi.2.1 roi.2.2).getD 4 0,
                   (fit roi.1 roi.2.1 roi.2.2).getD 7 0],
                  [(fit roi.1 roi.2.1 roi.2.2).getD 5 0,
                   (fit roi.1 roi.2.1 roi.2.2).getD 8 0]) := by
          rw [roi_peak_triples, if_neg hng, if_pos hd]
        rw [collect_peaks, h1, hrest]
        simp only [List.flatMap_cons, if_neg hng]
        rfl
  refine ⟨?_, ?_, hcollect, ?_, ?_, ?_⟩
  · intro fit spectrum roi_data isotope_data h
    rw [process_spectrum, if_pos h]
  · intro fit spectrum roi_data isotope_data h
    rw [process_spectrum_off_axis, if_pos h]
  · intro fit spectrum roi_data isotope_data r h hc
    rw [process_spectrum, if_neg h, hc]
  · intro fit roi_data h r hr
    rw [hcollect fit roi_data h] at hr
    obtain rfl := Option.some.inj hr
    have hlen : ∀ k k' : ℕ,
        (roi_data.flatMap fun roi =>
          if roi.1 = "gaussian" then [(fit roi.1 roi.2.1 roi.2.2).getD k 0]
          else [(fit roi.1 roi.2.1 roi.2.2).getD k 0,
                (fit roi.1 roi.2.1 roi.2.2).getD k' 0]).length =
          (roi_data.map fun roi => if roi.1 = "gaussian" then 1 else 2).sum := by
      intro k k'
      refine length_flatMap_peaks roi_data _ fun roi hroi => ?_
      by_cases hg : roi.1 = "gaussian" <;> simp [hg]
    exact ⟨hlen 3 6, hlen 4 7, hlen 5 8⟩
  · intro fit spectrum roi_data isotope_data h
    exact ⟨by rw [process_spectrum_off_axis, if_neg h], by simp⟩

theorem process_spectrum_record_spec_witness :
    process_spectrum (fun _ _ _ => [0, 0, 0, 10, 2, 100])
        ⟨"b", "Background", [], 600, []⟩ [] [] = some [] ∧
    process_spectrum_off_axis (fun _ _ => [0, 0, 0, 10, 2, 100])
        ⟨"b", "Background", [], 600, []⟩ [] [] = [] ∧
    collect_peaks (fun _ _ _ => [0, 0, 0, 10, 2, 100])
        [("gaussian", [1], [3]), ("double_gaussian", [1], [3])] =
      some ([10, 10, 0], [2, 2, 0], [100, 100, 0]) ∧
    process_spectrum (fun _ _ _ => [0, 0, 0, 10, 2, 100])
        ⟨"f", "133-Ba", [], 300, [53.2]⟩
        [("gaussian", [1], [3]), ("double_gaussian", [1], [3])] [] =
      some [⟨"133-Ba", [], [10, 10, 0], [2, 2, 0], [53.2], [100, 100, 0]⟩] ∧
    ([10, 10, 0] : List ℝ).length = 3 ∧
    process_spectrum_off_axis (fun _ _ => [0, 0, 0, 10, 2, 100])
        ⟨"f", "0", [], 200, [59.5]⟩ [("gaussian", [1], [3])] [] =
      [⟨"0", [3], [10], [2], [59.5], [100]⟩] := by
  have hmodels : ∀ roi ∈ ([("gaussian", ([1] : List ℚ), ([3] : List ℚ)),
      ("double_gaussian", [1], [3])] : List (String × List ℚ × List ℚ)),
      roi.1 = "gaussian" ∨ roi.1 = "double_gaussian" := by decide
  obtain ⟨hbg, hbgoff, hcol, happ, hlen, hoff⟩ := process_spectrum_record_spec
  have hc := hcol (fun _ _ _ => [0, 0, 0, 10, 2, 100])
    [("gaussian", [1], [3]), ("double_gaussian", [1], [3])] hmodels
  have hc' : collect_peaks (fun _ _ _ => [0, 0, 0, 10, 2, 100])
      [("gaussian", [1], [3]), ("double_gaussian", [1], [3])] =
      some ([10, 10, 0], [2, 2, 0], [100, 100, 0]) := by
    rw [hc]; rfl
  have hl := hlen (fun _ _ _ => [0, 0, 0, 10, 2, 100])
    [("gaussian", [1], [3]), ("double_gaussian", [1], [3])] hmodels
    ([10, 10, 0], [2, 2, 0], [100, 100, 0]) hc'
  refine ⟨hbg _ _ _ _ rfl, hbgoff _ _ _ _ rfl, hc', ?_, ?_, ?_⟩
  · rw [happ (fun _ _ _ => [0, 0, 0, 10, 2, 100])
      ⟨"f", "133-Ba", [], 300, [53.2]⟩
      [("gaussian", [1], [3]), ("double_gaussian", [1], [3])] []
      ([10, 10, 0], [2, 2, 0], [100, 100, 0]) (by decide) hc']
    rfl
  · rw [hl.1]; rfl
  · rw [(hoff (fun _ _ => [0, 0, 0, 10, 2, 100])
      ⟨"f", "0", [], 200, [59.5]⟩ [("gaussian", [1], [3])] [] (by decide)).1]
    norm_num
